import Mathlib

/-!
Verification of `tools/python/maps_generator/generator/exceptions.py`,
specifically the exit-status checker `wait_and_raise_if_fail(p)`.

The checker receives a process handle `p`, calls `p.wait()`, and when the
returned status differs from `os.EX_OK` it composes a diagnostic message and
raises `BadExitStatusError`.  Two handle shapes are distinguished by the exact
runtime type test `type(p) is subprocess.Popen`:

* the `Popen` branch reads up to 256 bytes from each of the optional
  `stdout`/`stderr` streams and decodes them;
* the other branch uses the `.name` attributes of the `output` and `error`
  file objects.

We model a Python process handle as a single record carrying a runtime-type
tag plus every attribute either branch may access.  Fallible Python
behaviour (uncaught `TypeError`, `IndexError`, `AttributeError`, and the
deliberate `BadExitStatusError`) is modelled with `Except`; mutation
(`args.pop(0)`, stream reads, the `wait` call) is modelled by returning an
updated handle next to the result.
-/

/-- The platform success code `os.EX_OK` (0 on POSIX). -/
def osEX_OK : Int := 0

/-- A readable byte stream, as the `Popen` branch uses it.  `data` stands for
the text produced by `stream.read(256).decode()` (the decoded first
up-to-256 bytes); `consumed` records whether a read has consumed from the
stream's current position. -/
structure PyStream where
  data : String
  consumed : Bool
deriving DecidableEq, Repr

/-- Model of `stream.read(256).decode()`: yields the decoded text of the
first up-to-256 bytes and marks the stream as consumed. -/
def PyStream.read256decode (s : PyStream) : String × PyStream :=
  (s.data, { s with consumed := true })

/-- A named file-like object, as the non-`Popen` branch uses it: only its
`.name` is ever accessed by the checker, never its contents. -/
structure NamedFile where
  name : String
  content : String
deriving DecidableEq, Repr

/-- The exact runtime type of the handle: `popen` means
`type(p) is subprocess.Popen` holds, `other` means it does not (this
includes subclasses of `Popen`, since `type(p) is T` ignores inheritance). -/
inductive PyType where
  | popen
  | other
deriving DecidableEq, Repr

/-- A Python process handle, unifying the attributes either branch of the
checker may touch.

* `args`    : the invocation argument list (`p.args`), mutable;
* `waitRet` : the integer `p.wait()` returns;
* `waitCalls` : instrumentation counting how many times `wait` was invoked;
* `stdout`, `stderr` : the `Popen` stream attributes, `none` models Python
  `None`;
* `output`, `error` : the named file attributes used by the non-`Popen`
  branch; `none` models the attribute being absent (access raises
  `AttributeError`);
* `storedStatus` : a separately stored exit status (such as
  `Popen.returncode`); the checker never reads or writes it. -/
structure Handle where
  ty : PyType
  args : List String
  waitRet : Int
  waitCalls : Nat
  stdout : Option PyStream
  stderr : Option PyStream
  output : Option NamedFile
  error : Option NamedFile
  storedStatus : Option Int
deriving DecidableEq, Repr

/-- Model of `p.wait()`: returns the exit status and bumps the invocation
counter. -/
def Handle.wait (p : Handle) : Int × Handle :=
  (p.waitRet, { p with waitCalls := p.waitCalls + 1 })

/-- The exceptions the checker can let escape: the deliberate
`BadExitStatusError`, plus the unintended Python `TypeError` (from `+` on
`None`), `IndexError` (from `pop(0)` on an empty list) and `AttributeError`
(from a missing `output`/`error` attribute). -/
inductive Exn where
  | badExitStatus (msg : String)
  | typeError
  | indexError
  | attributeError
deriving DecidableEq, Repr

/-- How a Python f-string renders an optional string: `None` prints as the
literal text `"None"`. -/
def strOfOpt : Option String → String
  | none => "None"
  | some s => s

/-- The message f-string, shared verbatim by both branches of the source:
`f"The launch of {args.pop(0)} failed.\nArguments used: {' '.join(args)}\nSee details in {logs}"`.
`hd` is the popped first argument and `rest` the list left after the pop. -/
def fmtMsg (hd : String) (rest : List String) (logs : String) : String :=
  "The launch of " ++ hd ++ " failed.\nArguments used: " ++
    String.intercalate " " rest ++ "\nSee details in " ++ logs

/-- Model of `logs += " and " + errors` guarded by `if errors != logs`.
When the two optional strings differ and both are strings the concatenation
succeeds; when they differ and one of them is `None`, Python raises
`TypeError` (`None + str` or `str + None`). -/
def combineLogs (logs errors : Option String) : Except Exn (Option String) :=
  if errors ≠ logs then
    match logs, errors with
    | some l, some e => .ok (some (l ++ " and " ++ e))
    | _, _ => .error .typeError
  else
    .ok logs

/-- Model of `args.pop(0)` followed by building and raising the error:
`pop(0)` on an empty list raises `IndexError`; otherwise the head is removed
from the handle's argument list and `BadExitStatusError` carries the
formatted message. -/
def popAndRaise (p : Handle) (logs : String) : Except Exn Unit × Handle :=
  match p.args with
  | [] => (.error .indexError, p)
  | hd :: tl => (.error (.badExitStatus (fmtMsg hd tl logs)), { p with args := tl })

/-- Shallow embedding of `wait_and_raise_if_fail(p)` from
`tools/python/maps_generator/generator/exceptions.py`.  Returns the outcome
(normal return, or the escaping exception) together with the final state of
the handle. -/
def wait_and_raise_if_fail (p : Handle) : Except Exn Unit × Handle :=
  let (st, p) := p.wait
  if st ≠ osEX_OK then
    if p.ty = .popen then
      let (logs, p) : Option String × Handle :=
        match p.stdout with
        | none => (none, p)
        | some s =>
          let (d, s') := s.read256decode
          (some d, { p with stdout := some s' })
      let (errors, p) : Option String × Handle :=
        match p.stderr with
        | none => (none, p)
        | some s =>
          let (d, s') := s.read256decode
          (some d, { p with stderr := some s' })
      match combineLogs logs errors with
      | .error ex => (.error ex, p)
      | .ok logs => popAndRaise p (strOfOpt logs)
    else
      match p.output with
      | none => (.error .attributeError, p)
      | some o =>
        match p.error with
        | none => (.error .attributeError, p)
        | some e =>
          let logs := if e.name ≠ o.name then o.name ++ " and " ++ e.name else o.name
          popAndRaise p logs
  else
    (.ok (), p)

/-- Concrete Shape-A handle matching the spec's scenario: args
`["ffmpeg", "-i", "in.mp4", "out.mp4"]`, exit status 1, both streams carrying
the text `error: codec`. -/
def wPopen : Handle :=
  { ty := .popen, args := ["ffmpeg", "-i", "in.mp4", "out.mp4"], waitRet := 1,
    waitCalls := 0,
    stdout := some { data := "error: codec", consumed := false },
    stderr := some { data := "error: codec", consumed := false },
    output := none, error := none, storedStatus := none }

/-- Concrete Shape-B (file-backed) handle: non-`Popen` runtime type, named
output and error destinations with differing names and unread contents. -/
def wFile : Handle :=
  { ty := .other, args := ["osm2ft", "--in", "a.osm"], waitRet := 2,
    waitCalls := 0, stdout := none, stderr := none,
    output := some { name := "out.log", content := "out contents" },
    error := some { name := "err.log", content := "err contents" },
    storedStatus := some 2 }

/-- Concrete failing `Popen` handle with both streams absent (`None`). -/
def wPopenNoStreams : Handle :=
  { ty := .popen, args := ["gen", "-v"], waitRet := 1, waitCalls := 0,
    stdout := none, stderr := none, output := none, error := none,
    storedStatus := none }

/-- Concrete failing handle exposing every Shape-A capability (argument list,
wait, readable stdout and stderr streams) whose exact runtime type is not
`subprocess.Popen`; it also carries named output/error destinations. -/
def shapeACapableOther : Handle :=
  { ty := .other, args := ["x", "y"], waitRet := 1, waitCalls := 0,
    stdout := some { data := "stream stdout text", consumed := false },
    stderr := some { data := "stream stderr text", consumed := false },
    output := some { name := "a.log", content := "file contents a" },
    error := some { name := "b.log", content := "file contents b" },
    storedStatus := none }

/-- Concrete failing `Popen` handle with stdout absent and stderr present:
the input on which `logs += " and " + errors` adds a string to `None`. -/
def mixedStderrOnly : Handle :=
  { ty := .popen, args := ["generator_tool", "--stage"], waitRet := 1,
    waitCalls := 0, stdout := none,
    stderr := some { data := "assert failed", consumed := false },
    output := none, error := none, storedStatus := none }

/-- Concrete failing `Popen` handle with stdout present and stderr absent:
the input on which `logs += " and " + errors` adds `None` to a string. -/
def mixedStdoutOnly : Handle :=
  { ty := .popen, args := ["generator_tool", "--verbose"], waitRet := 3,
    waitCalls := 0,
    stdout := some { data := "stage coastline started", consumed := false },
    stderr := none, output := none, error := none, storedStatus := none }

/-- C2: a handle whose `wait` returns the success code produces a normal
return and the handle is otherwise untouched: the argument list is unchanged
and neither stream is read (only the `wait`-invocation counter moves). -/
theorem success_no_side_effects (p : Handle) (h : p.waitRet = osEX_OK) :
    wait_and_raise_if_fail p = (.ok (), { p with waitCalls := p.waitCalls + 1 }) := by
  simp [wait_and_raise_if_fail, Handle.wait, h]

/-- C2 witness: a concrete success-status handle runs to a normal return with
argument list and streams intact. -/
theorem success_no_side_effects_witness :
    (({ ty := .popen, args := ["ls", "-l"], waitRet := 0, waitCalls := 0,
        stdout := some { data := "out", consumed := false },
        stderr := some { data := "err", consumed := false },
        output := none, error := none, storedStatus := none } : Handle).waitRet = osEX_OK)
    ∧ wait_and_raise_if_fail
        { ty := .popen, args := ["ls", "-l"], waitRet := 0, waitCalls := 0,
          stdout := some { data := "out", consumed := false },
          stderr := some { data := "err", consumed := false },
          output := none, error := none, storedStatus := none } =
      (.ok (), { ty := .popen, args := ["ls", "-l"], waitRet := 0, waitCalls := 1,
                 stdout := some { data := "out", consumed := false },
                 stderr := some { data := "err", consumed := false },
                 output := none, error := none, storedStatus := none }) :=
  ⟨rfl, success_no_side_effects _ rfl⟩

/-- Inversion helper: whenever the checker lets a `BadExitStatusError` escape,
the message was produced by the shared f-string from a non-empty argument
list whose head was popped, and the handle's final argument list is the tail. -/
theorem badExit_inv (p : Handle) (m : String)
    (hm : (wait_and_raise_if_fail p).1 = .error (.badExitStatus m)) :
    ∃ hd tl d, p.args = hd :: tl ∧ m = fmtMsg hd tl d ∧
      (wait_and_raise_if_fail p).2.args = tl := by
  rcases p with ⟨ty, args, w, wc, so, se, o, er, st⟩
  by_cases hw : w = osEX_OK
  · simp [wait_and_raise_if_fail, Handle.wait, hw] at hm
  · cases ty with
    | popen =>
      rcases so with _ | ⟨s⟩ <;> rcases se with _ | ⟨e⟩
      · rcases args with _ | ⟨hd, tl⟩
        · simp [wait_and_raise_if_fail, Handle.wait, hw, combineLogs,
            popAndRaise] at hm
        · refine ⟨hd, tl, "None", rfl, ?_, ?_⟩
          · simp [wait_and_raise_if_fail, Handle.wait, hw, combineLogs,
              popAndRaise, strOfOpt] at hm
            exact hm.symm
          · simp [wait_and_raise_if_fail, Handle.wait, hw, combineLogs,
              popAndRaise]
      · simp [wait_and_raise_if_fail, Handle.wait, hw, combineLogs,
          PyStream.read256decode] at hm
      · simp [wait_and_raise_if_fail, Handle.wait, hw, combineLogs,
          PyStream.read256decode] at hm
      · by_cases hc : e.data = s.data
        · rcases args with _ | ⟨hd, tl⟩
          · simp [wait_and_raise_if_fail, Handle.wait, hw, combineLogs,
              PyStream.read256decode, popAndRaise, hc] at hm
          · refine ⟨hd, tl, s.data, rfl, ?_, ?_⟩
            · simp [wait_and_raise_if_fail, Handle.wait, hw, combineLogs,
                PyStream.read256decode, popAndRaise, strOfOpt, hc] at hm
              exact hm.symm
            · simp [wait_and_raise_if_fail, Handle.wait, hw, combineLogs,
                PyStream.read256decode, popAndRaise, hc]
        · rcases args with _ | ⟨hd, tl⟩
          · simp [wait_and_raise_if_fail, Handle.wait, hw, combineLogs,
              PyStream.read256decode, popAndRaise, hc] at hm
          · refine ⟨hd, tl, s.data ++ " and " ++ e.data, rfl, ?_, ?_⟩
            · simp [wait_and_raise_if_fail, Handle.wait, hw, combineLogs,
                PyStream.read256decode, popAndRaise, strOfOpt, hc] at hm
              exact hm.symm
            · simp [wait_and_raise_if_fail, Handle.wait, hw, combineLogs,
                PyStream.read256decode, popAndRaise, hc]
    | other =>
      rcases o with _ | ⟨o⟩
      · simp [wait_and_raise_if_fail, Handle.wait, hw] at hm
      · rcases er with _ | ⟨er⟩
        · simp [wait_and_raise_if_fail, Handle.wait, hw] at hm
        · rcases args with _ | ⟨hd, tl⟩
          · simp [wait_and_raise_if_fail, Handle.wait, hw, popAndRaise] at hm
          · refine ⟨hd, tl,
              if er.name = o.name then o.name else o.name ++ " and " ++ er.name,
              rfl, ?_, ?_⟩
            · by_cases hc : er.name = o.name <;>
                · simp only [wait_and_raise_if_fail, Handle.wait, hw,
                    popAndRaise, hc] at hm ⊢
                  simp [hw, hc] at hm ⊢
                  exact hm.symm
            · simp [wait_and_raise_if_fail, Handle.wait, hw, popAndRaise]

/-- C3: whenever a Shape-A (exact `Popen` type) handle makes the checker raise
`BadExitStatusError`, the carried message has the literal three-line
structure built by the source f-string: the executable is the first element
of the argument list and the remaining arguments appear space-joined in
their original order, followed by some diagnostic-source description. -/
theorem shapeA_message_structure (p : Handle) (m : String)
    (hty : p.ty = PyType.popen)
    (hm : (wait_and_raise_if_fail p).1 = .error (.badExitStatus m)) :
    ∃ hd tl d, p.args = hd :: tl ∧ m = fmtMsg hd tl d := by
  obtain ⟨hd, tl, d, h1, h2, _⟩ := badExit_inv p m hm
  exact ⟨hd, tl, d, h1, h2⟩

/-- C3 witness: on the spec's concrete scenario handle, the raised message is
exactly the f-string instance for executable `ffmpeg`. -/
theorem shapeA_message_structure_witness :
    ∃ hd tl d, wPopen.args = hd :: tl ∧
      "The launch of ffmpeg failed.\nArguments used: -i in.mp4 out.mp4\nSee details in error: codec" =
        fmtMsg hd tl d :=
  shapeA_message_structure wPopen
    "The launch of ffmpeg failed.\nArguments used: -i in.mp4 out.mp4\nSee details in error: codec"
    rfl rfl

/-- C7: whenever the checker raises `BadExitStatusError` (either shape), the
argument list had a head, message formatting popped it, and the handle's
argument list afterwards is exactly the original tail: the caller's list no
longer starts with its original head. -/
theorem raise_pops_args_head (p : Handle) (m : String)
    (hm : (wait_and_raise_if_fail p).1 = .error (.badExitStatus m)) :
    ∃ hd tl, p.args = hd :: tl ∧ (wait_and_raise_if_fail p).2.args = tl := by
  obtain ⟨hd, tl, _, h1, _, h3⟩ := badExit_inv p m hm
  exact ⟨hd, tl, h1, h3⟩

/-- C7 witness: on the concrete scenario handle the argument list afterwards
has lost its head `ffmpeg`. -/
theorem raise_pops_args_head_witness :
    ∃ hd tl, wPopen.args = hd :: tl ∧ (wait_and_raise_if_fail wPopen).2.args = tl :=
  raise_pops_args_head wPopen
    "The launch of ffmpeg failed.\nArguments used: -i in.mp4 out.mp4\nSee details in error: codec"
    rfl

/-- C9: a failing exact-`Popen` handle with both streams absent raises
`BadExitStatusError` (no secondary error), and the diagnostic section of its
message is the f-string rendering of Python `None`, so the message ends with
`See details in None`. -/
theorem popen_no_streams_details_None (p : Handle) (hd : String)
    (tl : List String) (hty : p.ty = PyType.popen) (hst : p.waitRet ≠ osEX_OK)
    (hso : p.stdout = none) (hse : p.stderr = none) (hargs : p.args = hd :: tl) :
    (wait_and_raise_if_fail p).1 = .error (.badExitStatus (fmtMsg hd tl "None")) := by
  rcases p with ⟨ty, args, w, wc, so, se, o, er, st⟩
  dsimp at hty hso hse hargs hst
  subst hty hso hse hargs
  simp [wait_and_raise_if_fail, Handle.wait, hst, combineLogs, popAndRaise,
    strOfOpt]

/-- C9 witness: the concrete no-stream handle produces the message ending in
`See details in None`. -/
theorem popen_no_streams_details_None_witness :
    (wait_and_raise_if_fail wPopenNoStreams).1 =
      .error (.badExitStatus (fmtMsg "gen" ["-v"] "None")) :=
  popen_no_streams_details_None wPopenNoStreams "gen" ["-v"] rfl
    (by decide) rfl rfl rfl

/-- C5: a failing exact-`Popen` handle with both streams present raises
`BadExitStatusError` whose log-reference section is the decoded stdout text
alone when the two decoded texts are equal, and
`<stdout-text> and <stderr-text>` when they differ. -/
theorem shapeA_both_streams_diag (p : Handle) (s e : PyStream) (hd : String)
    (tl : List String) (hty : p.ty = PyType.popen) (hst : p.waitRet ≠ osEX_OK)
    (hso : p.stdout = some s) (hse : p.stderr = some e)
    (hargs : p.args = hd :: tl) :
    (wait_and_raise_if_fail p).1 =
      .error (.badExitStatus (fmtMsg hd tl
        (if e.data = s.data then s.data else s.data ++ " and " ++ e.data))) := by
  rcases p with ⟨ty, args, w, wc, so, se', o, er, st⟩
  dsimp at hty hso hse hargs hst
  subst hty hso hse hargs
  by_cases hc : e.data = s.data <;>
    simp [wait_and_raise_if_fail, Handle.wait, hst, combineLogs,
      PyStream.read256decode, popAndRaise, strOfOpt, hc]

/-- C5 witness: on the spec's concrete scenario the two decoded texts are
equal, so the log-reference section is the single text `error: codec`. -/
theorem shapeA_both_streams_diag_witness :
    (wait_and_raise_if_fail wPopen).1 =
      .error (.badExitStatus (fmtMsg "ffmpeg" ["-i", "in.mp4", "out.mp4"]
        (if "error: codec" = "error: codec" then "error: codec"
         else "error: codec" ++ " and " ++ "error: codec"))) :=
  shapeA_both_streams_diag wPopen
    { data := "error: codec", consumed := false }
    { data := "error: codec", consumed := false }
    "ffmpeg" ["-i", "in.mp4", "out.mp4"] rfl (by decide) rfl rfl rfl

/-- C6: a failing non-`Popen` (file-backed) handle with both named
destinations present raises `BadExitStatusError` whose log-reference section
is the output destination's name alone when the error destination has the
same name, and `<output-name> and <error-name>` when the names differ; the
result is pinned independently of the destinations' contents, and changing
those contents does not change the outcome (contents are never read). -/
theorem shapeB_diag_uses_names (p : Handle) (o e : NamedFile) (hd : String)
    (tl : List String) (hty : p.ty ≠ PyType.popen) (hst : p.waitRet ≠ osEX_OK)
    (ho : p.output = some o) (he : p.error = some e)
    (hargs : p.args = hd :: tl) :
    (wait_and_raise_if_fail p).1 =
      .error (.badExitStatus (fmtMsg hd tl
        (if e.name = o.name then o.name else o.name ++ " and " ++ e.name)))
    ∧ ∀ c₁ c₂ : String,
        (wait_and_raise_if_fail
          { p with output := some { o with content := c₁ },
                   error := some { e with content := c₂ } }).1 =
        (wait_and_raise_if_fail p).1 := by
  rcases p with ⟨ty, args, w, wc, so, se, oo, er, st⟩
  dsimp at hty ho he hargs hst
  subst ho he hargs
  have hty' : ty = PyType.other := by cases ty <;> simp_all
  subst hty'
  constructor
  · by_cases hc : e.name = o.name <;>
      simp [wait_and_raise_if_fail, Handle.wait, hst, popAndRaise, hc]
  · intro c₁ c₂
    by_cases hc : e.name = o.name <;>
      simp [wait_and_raise_if_fail, Handle.wait, hst, popAndRaise, hc]

/-- C6 witness: on the concrete file-backed handle with names `out.log` and
`err.log`, the log-reference section is `out.log and err.log`. -/
theorem shapeB_diag_uses_names_witness :
    (wait_and_raise_if_fail wFile).1 =
      .error (.badExitStatus (fmtMsg "osm2ft" ["--in", "a.osm"]
        (if "err.log" = "out.log" then "out.log"
         else "out.log" ++ " and " ++ "err.log"))) :=
  (shapeB_diag_uses_names wFile
    { name := "out.log", content := "out contents" }
    { name := "err.log", content := "err contents" }
    "osm2ft" ["--in", "a.osm"] (by decide) (by decide) rfl rfl rfl).1

/-- C8 counterexample: `shapeACapableOther` exposes every Shape-A capability
(argument list, wait, readable stdout and stderr streams) and fails, yet the
checker does not take the stream-reading path: both streams are left
unconsumed and the message references the named destinations `a.log` and
`b.log` instead of the streams' text, because dispatch tests the exact
runtime type rather than capabilities. -/
theorem capability_probe_refuted :
    (wait_and_raise_if_fail shapeACapableOther).1 =
      .error (.badExitStatus
        "The launch of x failed.\nArguments used: y\nSee details in a.log and b.log")
    ∧ (wait_and_raise_if_fail shapeACapableOther).2.stdout =
        some { data := "stream stdout text", consumed := false }
    ∧ (wait_and_raise_if_fail shapeACapableOther).2.stderr =
        some { data := "stream stderr text", consumed := false } := by
  refine ⟨?_, rfl, rfl⟩
  rfl

/-- C8 amended: the checker dispatches on the exact runtime type, not on
capabilities: for a failing handle with both streams present, the streams
are read (consumed) exactly when the runtime type is exactly
`subprocess.Popen`; any other runtime type leaves them untouched. -/
theorem dispatch_by_exact_runtime_type (p : Handle) (s e : PyStream)
    (hso : p.stdout = some s) (hse : p.stderr = some e)
    (hst : p.waitRet ≠ osEX_OK) :
    (p.ty ≠ PyType.popen →
      (wait_and_raise_if_fail p).2.stdout = some s ∧
      (wait_and_raise_if_fail p).2.stderr = some e)
    ∧ (p.ty = PyType.popen →
      (wait_and_raise_if_fail p).2.stdout = some { s with consumed := true } ∧
      (wait_and_raise_if_fail p).2.stderr = some { e with consumed := true }) := by
  rcases p with ⟨ty, args, w, wc, so, se', o, er, st⟩
  dsimp at hso hse hst
  subst hso hse
  constructor
  · intro hty
    have hty' : ty = PyType.other := by cases ty <;> simp_all
    subst hty'
    rcases o with _ | ⟨o⟩
    · simp [wait_and_raise_if_fail, Handle.wait, hst]
    · rcases er with _ | ⟨er⟩
      · simp [wait_and_raise_if_fail, Handle.wait, hst]
      · rcases args with _ | ⟨hd, tl⟩ <;>
          simp [wait_and_raise_if_fail, Handle.wait, hst, popAndRaise]
  · intro hty
    dsimp at hty
    subst hty
    by_cases hc : e.data = s.data <;> rcases args with _ | ⟨hd, tl⟩ <;>
      simp [wait_and_raise_if_fail, Handle.wait, hst, combineLogs,
        PyStream.read256decode, popAndRaise, hc]

/-- C8 amended witness: the non-`Popen` Shape-A-capable handle keeps its
streams unconsumed, while the exact-`Popen` scenario handle has both streams
consumed. -/
theorem dispatch_by_exact_runtime_type_witness :
    ((wait_and_raise_if_fail shapeACapableOther).2.stdout =
        some { data := "stream stdout text", consumed := false } ∧
     (wait_and_raise_if_fail shapeACapableOther).2.stderr =
        some { data := "stream stderr text", consumed := false })
    ∧ ((wait_and_raise_if_fail wPopen).2.stdout =
        some { data := "error: codec", consumed := true } ∧
       (wait_and_raise_if_fail wPopen).2.stderr =
        some { data := "error: codec", consumed := true }) :=
  ⟨(dispatch_by_exact_runtime_type shapeACapableOther
      { data := "stream stdout text", consumed := false }
      { data := "stream stderr text", consumed := false }
      rfl rfl (by decide)).1 (by decide),
   (dispatch_by_exact_runtime_type wPopen
      { data := "error: codec", consumed := false }
      { data := "error: codec", consumed := false }
      rfl rfl (by decide)).2 rfl⟩

/-- C1 code-bug evidence: on a failing exact-`Popen` handle whose stdout is
absent while stderr has content, the checker does not raise
`BadExitStatusError` at all: the statement `logs += " and " + errors` adds a
string to `None` and an uncaught `TypeError` escapes instead, violating the
stated if-and-only-if invariant. -/
theorem mixed_absent_stdout_raises_typeError :
    (wait_and_raise_if_fail mixedStderrOnly).1 = .error .typeError
    ∧ ∀ m : String,
        (wait_and_raise_if_fail mixedStderrOnly).1 ≠
          .error (.badExitStatus m) := by
  constructor
  · rfl
  · intro m h
    rw [show (wait_and_raise_if_fail mixedStderrOnly).1 =
        Except.error Exn.typeError from rfl] at h
    exact Exn.noConfusion (Except.error.inj h)

/-- C4 code-bug evidence: on a failing exact-`Popen` handle whose stdout has
content while stderr is absent, message composition raises a secondary
error: `" and " + errors` concatenates a string with `None` and an uncaught
`TypeError` escapes, so the absent stream is not treated as "no content
available". -/
theorem mixed_absent_stderr_raises_typeError :
    (wait_and_raise_if_fail mixedStdoutOnly).1 = .error .typeError
    ∧ ∀ m : String,
        (wait_and_raise_if_fail mixedStdoutOnly).1 ≠
          .error (.badExitStatus m) := by
  constructor
  · rfl
  · intro m h
    rw [show (wait_and_raise_if_fail mixedStdoutOnly).1 =
        Except.error Exn.typeError from rfl] at h
    exact Exn.noConfusion (Except.error.inj h)

/-- C10: the checker invokes `wait` exactly once on every call (the
invocation counter rises by exactly one on every path, success or failure,
either shape), and the exit status it acts on is solely `wait`'s return
value: the outcome is unchanged under any value of the separately stored
status field, which the checker also never writes. -/
theorem wait_called_once_sole_status_source (p : Handle) (s : Option Int) :
    (wait_and_raise_if_fail { p with storedStatus := s }).1 =
      (wait_and_raise_if_fail p).1
    ∧ (wait_and_raise_if_fail p).2.waitCalls = p.waitCalls + 1
    ∧ (wait_and_raise_if_fail p).2.storedStatus = p.storedStatus := by
  rcases p with ⟨ty, args, w, wc, so, se, o, er, st⟩
  by_cases hw : w = osEX_OK
  · simp [wait_and_raise_if_fail, Handle.wait, hw]
  · cases ty with
    | popen =>
      rcases so with _ | ⟨so⟩ <;> rcases se with _ | ⟨se⟩
      · rcases args with _ | ⟨hd, tl⟩ <;>
          simp [wait_and_raise_if_fail, Handle.wait, hw, combineLogs,
            popAndRaise, strOfOpt]
      · simp [wait_and_raise_if_fail, Handle.wait, hw, combineLogs,
          PyStream.read256decode]
      · simp [wait_and_raise_if_fail, Handle.wait, hw, combineLogs,
          PyStream.read256decode]
      · by_cases hc : se.data = so.data <;> rcases args with _ | ⟨hd, tl⟩ <;>
          simp [wait_and_raise_if_fail, Handle.wait, hw, combineLogs,
            PyStream.read256decode, popAndRaise, strOfOpt, hc]
    | other =>
      rcases o with _ | ⟨o⟩
      · simp [wait_and_raise_if_fail, Handle.wait, hw]
      · rcases er with _ | ⟨er⟩
        · simp [wait_and_raise_if_fail, Handle.wait, hw]
        · by_cases hc : er.name = o.name <;> rcases args with _ | ⟨hd, tl⟩ <;>
            simp [wait_and_raise_if_fail, Handle.wait, hw, popAndRaise, hc]
